import Mathlib

/-!
# IoT Sensor Network Reliability Tracker — verification development

Shallow embedding of the statistical/queueing engine of the
iot-sensor-reliability-tracker repository, which ships four parallel
implementations of the same engine:

* a Haskell module `ReliabilityModels.hs` (exponential/Erlang survival
  functions, fleet metrics, cascade risk, M/M/c queue);
* a C++ engine `reliability_engine.cpp` (classes `ExponentialModel`,
  `ErlangModel`, `QueueingModel`, `FleetReliabilityManager`);
* a Fortran program `reliability_compute.f90` (functions
  `erlang_reliability`, `analyze_maintenance_queue`, `analyze_cascade_risk`);
* an R script `reliability_analysis.R`.

Real-valued formulas involving `exp` are embedded over `ℝ`; all purely
rational arithmetic (queueing formulas, cascade-risk ratios, health-tier
comparisons) is embedded over `ℚ`, so that those definitions stay
executable and concrete runs can be checked by `decide`.  The sources'
IEEE doubles are modelled as exact real/rational arithmetic; the sources'
iterative `factorial` helpers are embedded as `Nat.factorial`.

Top-level names follow the Haskell module; the C++ classes live in the
`Cpp` namespace; the Fortran routines keep their snake_case names.
-/

/-- Device record: the math-relevant fields of the sources' sensor record
(`Sensor` in Haskell/C++, the parallel arrays in Fortran).  `health` is the
classification signal, `failureRate` the exponential rate λ, `kStages` the
Erlang stage count k.  Presentation-only fields (id, type, location,
uptime, queue position) are omitted: no engine function reads them. -/
structure Sensor where
  health : ℚ
  failureRate : ℝ
  kStages : ℕ

/-! ## Haskell module `ReliabilityModels.hs` -/

/-- `exponentialReliability lambda t = exp (-lambda * t)`. -/
noncomputable def exponentialReliability (lambda t : ℝ) : ℝ :=
  Real.exp (-(lambda * t))

/-- `exponentialHazardRate lambda = lambda`. -/
def exponentialHazardRate (lambda : ℝ) : ℝ := lambda

/-- `exponentialMTBF lambda = 1.0 / lambda`. -/
noncomputable def exponentialMTBF (lambda : ℝ) : ℝ := 1.0 / lambda

/-- `erlangPDF k lambda t`: `0` for `t < 0`, otherwise
`lambda^k * t^(k-1) * exp (-lambda*t) / factorial (k-1)`. -/
noncomputable def erlangPDF (k : ℕ) (lambda t : ℝ) : ℝ :=
  if t < 0 then 0
  else lambda ^ k * t ^ (k - 1) * Real.exp (-(lambda * t)) / (Nat.factorial (k - 1) : ℝ)

/-- `erlangCDF k lambda t`: `0` for `t < 0`, otherwise
`1 - sum [exp (-lambda*t) * (lambda*t)^i / factorial i | i <- [0..k-1]]`. -/
noncomputable def erlangCDF (k : ℕ) (lambda t : ℝ) : ℝ :=
  if t < 0 then 0
  else 1 - ∑ i ∈ Finset.range k, Real.exp (-(lambda * t)) * (lambda * t) ^ i / (Nat.factorial i : ℝ)

/-- `erlangReliability k lambda t = 1 - erlangCDF k lambda t`.
For `t ≥ 0` this is the Poisson survival sum
`Σ_{i<k} exp (-λt) (λt)^i / i!`. -/
noncomputable def erlangReliability (k : ℕ) (lambda t : ℝ) : ℝ :=
  1 - erlangCDF k lambda t

/-- `erlangMTTF k lambda = fromIntegral k / lambda`. -/
noncomputable def erlangMTTF (k : ℕ) (lambda : ℝ) : ℝ := (k : ℝ) / lambda

/-- `average xs = sum xs / fromIntegral (length xs)` (Haskell; on the empty
list the source divides 0 by 0, which is NaN in its doubles and `0` under
Lean's total real division). -/
noncomputable def average (xs : List ℝ) : ℝ := xs.sum / (xs.length : ℝ)

/-- Haskell `RiskLevel = Low | Medium | High`. -/
inductive RiskLevel where
  | Low
  | Medium
  | High
deriving DecidableEq

/-- Haskell `CascadeRisk` record (field order as in the source). -/
structure CascadeRisk where
  currentFailures : ℕ
  cascadeRiskFactor : ℚ
  expectedAdditionalFailures : ℤ
  riskLevel : RiskLevel
  dependencyMultiplier : ℚ
deriving DecidableEq

/-- Haskell `round` on the rationals: round half to even (IEEE / Haskell
`round`; R's `round` uses the same rule). -/
def hsRound (q : ℚ) : ℤ :=
  let f := ⌊q⌋
  let r := q - (f : ℚ)
  if r < 1/2 then f
  else if 1/2 < r then f + 1
  else if f % 2 = 0 then f else f + 1

/-- Haskell `analyzeCascadeRisk`: failures are the sensors with
`health s < 30` (strict), the risk factor divides by the total count
(division by zero on an empty fleet), thresholds are strict, and
`expectedAdditionalFailures` uses Haskell `round`. -/
def analyzeCascadeRisk (sensors : List Sensor) : CascadeRisk :=
  let currentFailures := (sensors.filter fun s => s.health < 30).length
  let totalSensors := sensors.length
  let cascadeRiskFactor : ℚ := (currentFailures : ℚ) / (totalSensors : ℚ)
  let dependencyMultiplier : ℚ :=
    if cascadeRiskFactor > 0.2 then 1.5
    else if cascadeRiskFactor > 0.1 then 1.2
    else 1.0
  let expectedAdditionalFailures :=
    hsRound ((currentFailures : ℚ) * dependencyMultiplier * 0.3)
  let riskLevel :=
    if cascadeRiskFactor > 0.15 then RiskLevel.High
    else if cascadeRiskFactor > 0.08 then RiskLevel.Medium
    else RiskLevel.Low
  ⟨currentFailures, cascadeRiskFactor, expectedAdditionalFailures,
    riskLevel, dependencyMultiplier⟩

/-- Haskell `QueueMetrics` record. -/
structure QueueMetrics where
  utilization : ℚ
  avgQueueLength : ℚ
  avgWaitTimeMinutes : ℚ
deriving DecidableEq

/-- Haskell `calculateQueueMetrics`: `Nothing` when `rho >= 1`, otherwise
`Just` the Erlang-C metrics.  Note the `utilization` field is `rho * 100`,
a percentage. -/
def calculateQueueMetrics (arrivalRate serviceRate : ℚ) (numServers : ℕ) :
    Option QueueMetrics :=
  let rho := arrivalRate / ((numServers : ℚ) * serviceRate)
  if 1 ≤ rho then none
  else
    let lambdaMu := arrivalRate / serviceRate
    let p0Denominator :=
      ((List.range numServers).map fun n => lambdaMu ^ n / (Nat.factorial n : ℚ)).sum
        + lambdaMu ^ numServers / ((Nat.factorial numServers : ℚ) * (1 - rho))
    let p0 := 1 / p0Denominator
    let avgQueueLength :=
      p0 * lambdaMu ^ numServers * rho / ((Nat.factorial numServers : ℚ) * (1 - rho) ^ 2)
    let avgWaitTimeHours := avgQueueLength / arrivalRate
    some ⟨rho * 100, avgQueueLength, avgWaitTimeHours * 60⟩

/-! ## C++ engine `reliability_engine.cpp` -/

namespace Cpp

/-- C++ `ExponentialModel`: the constructor stores any rate, with no
validation. -/
structure ExponentialModel where
  lambda : ℝ

/-- `ExponentialModel::reliability(t) = exp(-lambda * t)`. -/
noncomputable def ExponentialModel.reliability (m : ExponentialModel) (t : ℝ) : ℝ :=
  Real.exp (-(m.lambda * t))

/-- `ExponentialModel::mtbf() = 1.0 / lambda`. -/
noncomputable def ExponentialModel.mtbf (m : ExponentialModel) : ℝ :=
  1.0 / m.lambda

/-- `ExponentialModel::pdf(t) = lambda * exp(-lambda * t)`. -/
noncomputable def ExponentialModel.pdf (m : ExponentialModel) (t : ℝ) : ℝ :=
  m.lambda * Real.exp (-(m.lambda * t))

/-- C++ `ErlangModel` (also the shape of the Fortran `erlang_reliability`
state): stage count and rate, stored unvalidated. -/
structure ErlangModel where
  k : ℕ
  lambda : ℝ

/-- The running term of the C++/Fortran reliability loop:
`term` starts at `e0 = exp(-λt)` and step `i` multiplies by `lt/i`
(`lt = λt`), so after `i` steps it holds `e0·lt^i/i!`. -/
noncomputable def erlangLoopTerm (lt e0 : ℝ) : ℕ → ℝ
  | 0 => e0
  | i + 1 => erlangLoopTerm lt e0 i * (lt / ((i : ℝ) + 1))

/-- The accumulator `cdf` of the C++/Fortran loop after `k` iterations:
the sum of the first `k` running terms. -/
noncomputable def erlangLoopSum (lt e0 : ℝ) : ℕ → ℝ
  | 0 => 0
  | k + 1 => erlangLoopSum lt e0 k + erlangLoopTerm lt e0 k

/-- `ErlangModel::reliability(t)`: the loop sums the running terms into a
variable named `cdf` and the function returns `1.0 - cdf`.  (The summed
variable actually holds the Poisson survival series, so the returned value
is the failure probability `F(t)`, not `R(t)`.) -/
noncomputable def ErlangModel.reliability (m : ErlangModel) (t : ℝ) : ℝ :=
  1 - erlangLoopSum (m.lambda * t) (Real.exp (-(m.lambda * t))) m.k

/-- `ErlangModel::pdf(t) = pow(λ,k) * pow(t,k-1) * exp(-λt) / factorial(k-1)`. -/
noncomputable def ErlangModel.pdf (m : ErlangModel) (t : ℝ) : ℝ :=
  m.lambda ^ m.k * t ^ (m.k - 1) * Real.exp (-(m.lambda * t)) / (Nat.factorial (m.k - 1) : ℝ)

/-- `ErlangModel::mttf() = k / lambda`. -/
noncomputable def ErlangModel.mttf (m : ErlangModel) : ℝ :=
  (m.k : ℝ) / m.lambda

/-- C++ `QueueingModel`: arrival rate, service rate, server count; the
constructor computes `rho = arrivalRate / (numServers * serviceRate)`. -/
structure QueueingModel where
  arrivalRate : ℚ
  serviceRate : ℚ
  numServers : ℕ

/-- The `rho` member computed in the C++ constructor. -/
def QueueingModel.rho (m : QueueingModel) : ℚ :=
  m.arrivalRate / ((m.numServers : ℚ) * m.serviceRate)

/-- `QueueingModel::isStable() = rho < 1.0`. -/
def QueueingModel.isStable (m : QueueingModel) : Prop := m.rho < 1

instance (m : QueueingModel) : Decidable m.isStable := by
  unfold QueueingModel.isStable
  infer_instance

/-- `QueueingModel::getUtilization() = rho` (the raw fraction, not a
percentage). -/
def QueueingModel.getUtilization (m : QueueingModel) : ℚ := m.rho

/-- `QueueingModel::calculateP0()`. -/
def QueueingModel.calculateP0 (m : QueueingModel) : ℚ :=
  let lambdaMu := m.arrivalRate / m.serviceRate
  let sumTerm :=
    ((List.range m.numServers).map fun n => lambdaMu ^ n / (Nat.factorial n : ℚ)).sum
  let lastTerm := lambdaMu ^ m.numServers / ((Nat.factorial m.numServers : ℚ) * (1 - m.rho))
  1 / (sumTerm + lastTerm)

/-- `QueueingModel::avgQueueLength()`: returns the numeric sentinel `-1.0`
when the system is not stable. -/
def QueueingModel.avgQueueLength (m : QueueingModel) : ℚ :=
  if ¬ m.rho < 1 then -1
  else
    let p0 := m.calculateP0
    let lambdaMu := m.arrivalRate / m.serviceRate
    p0 * lambdaMu ^ m.numServers * m.rho /
      ((Nat.factorial m.numServers : ℚ) * (1 - m.rho) ^ 2)

/-- `QueueingModel::avgWaitTime()`: `-1.0` when unstable, otherwise
`Lq / arrivalRate` (or `0` when the arrival rate is not positive). -/
def QueueingModel.avgWaitTime (m : QueueingModel) : ℚ :=
  if ¬ m.rho < 1 then -1
  else if 0 < m.arrivalRate then m.avgQueueLength / m.arrivalRate else 0

/-- C++ `FleetReliabilityManager::SensorStats`. -/
structure SensorStats where
  total : ℕ
  active : ℕ
  warning : ℕ
  failed : ℕ
deriving DecidableEq

/-- `FleetReliabilityManager::getSensorStats()`: the loop's
`if (health > 70) / else if (health > 30) / else` branches, so `failed`
counts sensors with `health ≤ 30`. -/
def getSensorStats (sensors : List Sensor) : SensorStats :=
  ⟨sensors.length,
    (sensors.filter fun s => s.health > 70).length,
    (sensors.filter fun s => ¬ s.health > 70 ∧ s.health > 30).length,
    (sensors.filter fun s => ¬ s.health > 70 ∧ ¬ s.health > 30).length⟩

/-- `FleetReliabilityManager::calculateFleetMTBF()`: the mean of the
per-sensor exponential MTBFs `1/λ`; on an empty manager the source divides
by `size() = 0` (NaN in its doubles, `0` under total division). -/
noncomputable def calculateFleetMTBF (sensors : List Sensor) : ℝ :=
  (sensors.map fun s => 1.0 / s.failureRate).sum / (sensors.length : ℝ)

/-- C++ `FleetReliabilityManager::CascadeRisk` (risk level is a
`std::string`). -/
structure CppCascadeRisk where
  currentFailures : ℕ
  riskFactor : ℚ
  expectedAdditional : ℤ
  riskLevel : String
  dependencyMultiplier : ℚ
deriving DecidableEq

/-- Truncation toward zero: `static_cast<int>` in C++, `int()` in Fortran. -/
def truncToInt (q : ℚ) : ℤ := if 0 ≤ q then ⌊q⌋ else ⌈q⌉

/-- `FleetReliabilityManager::analyzeCascadeRisk()`: failures counted with
`health < 30.0` (strict, unlike `getSensorStats`), strict thresholds, and
`expectedAdditional` truncated by `static_cast<int>`. -/
def analyzeCascadeRisk (sensors : List Sensor) : CppCascadeRisk :=
  let currentFailures := (sensors.filter fun s => s.health < 30).length
  let riskFactor : ℚ := (currentFailures : ℚ) / (sensors.length : ℚ)
  let dependencyMultiplier : ℚ :=
    if riskFactor > 0.2 then 1.5
    else if riskFactor > 0.1 then 1.2
    else 1.0
  let expectedAdditional :=
    truncToInt ((currentFailures : ℚ) * dependencyMultiplier * 0.3)
  let riskLevel : String :=
    if riskFactor > 0.15 then "HIGH"
    else if riskFactor > 0.08 then "MEDIUM"
    else "LOW"
  ⟨currentFailures, riskFactor, expectedAdditional, riskLevel, dependencyMultiplier⟩

end Cpp

/-! ## Fortran program `reliability_compute.f90` -/

/-- Fortran `erlang_reliability(k, lambda, t)`: the same running-term loop
as the C++ `ErlangModel::reliability` — it sums the survival terms into
`cdf_value` and returns `1.0 - cdf_value`. -/
noncomputable def erlang_reliability (k : ℕ) (lambda t : ℝ) : ℝ :=
  1 - Cpp.erlangLoopSum (lambda * t) (Real.exp (-(lambda * t))) k

/-- Fortran `analyze_maintenance_queue`: returns
`(utilization, avg_queue_length, avg_wait_time)`; when `rho >= 1` the
queue length and wait time are set to the sentinel `-1.0`. -/
def analyze_maintenance_queue (arr_rate serv_rate : ℚ) (n_servers : ℕ) :
    ℚ × ℚ × ℚ :=
  let rho := arr_rate / ((n_servers : ℚ) * serv_rate)
  if 1 ≤ rho then (rho, -1, -1)
  else
    let lambda_mu := arr_rate / serv_rate
    let sum_term :=
      ((List.range n_servers).map fun i => lambda_mu ^ i / (Nat.factorial i : ℚ)).sum
    let last_term := lambda_mu ^ n_servers / ((Nat.factorial n_servers : ℚ) * (1 - rho))
    let p0 := 1 / (sum_term + last_term)
    let avg_queue := p0 * lambda_mu ^ n_servers * rho /
      ((Nat.factorial n_servers : ℚ) * (1 - rho) ^ 2)
    let avg_wait := if 0 < arr_rate then avg_queue / arr_rate else 0
    (rho, avg_queue, avg_wait)

/-- Fortran `analyze_cascade_risk(n_failed, n_total)`: takes the counts
directly and returns `(risk_factor, dep_mult, expected_additional,
risk_level)`; `expected_additional` is truncated by `int()`. -/
def analyze_cascade_risk (n_failed n_total : ℕ) : ℚ × ℚ × ℤ × String :=
  let risk_factor : ℚ := (n_failed : ℚ) / (n_total : ℚ)
  let dep_mult : ℚ :=
    if risk_factor > 0.2 then 1.5
    else if risk_factor > 0.1 then 1.2
    else 1.0
  let expected_additional := Cpp.truncToInt ((n_failed : ℚ) * dep_mult * 0.3)
  let risk_level : String :=
    if risk_factor > 0.15 then "HIGH"
    else if risk_factor > 0.08 then "MEDIUM"
    else "LOW"
  (risk_factor, dep_mult, expected_additional, risk_level)

/-! ## Concrete fleets used by the scenario claims -/

/-- A 50-device fleet with exactly 5 failed sensors (health 10 < 30) and
45 active ones (health 90): the `failedCount = 5, totalCount = 50`
scenario.  Failure rate and stage count are irrelevant to cascade
analysis. -/
def demoFleet : List Sensor :=
  List.replicate 5 ⟨10, 1, 3⟩ ++ List.replicate 45 ⟨90, 1, 3⟩

/-! ## Helper lemmas -/

/-- The `else` branch of the C++ health-classification loop
(`¬ health > 70 ∧ ¬ health > 30`) selects exactly the sensors with
`health ≤ 30`. -/
theorem filter_failed_branch_eq (l : List Sensor) :
    (l.filter fun s => ¬ s.health > 70 ∧ ¬ s.health > 30)
      = l.filter fun s => s.health ≤ 30 := by
  apply List.filter_congr
  intro s _
  simp only [decide_eq_decide, not_lt, gt_iff_lt]
  constructor
  · rintro ⟨_, h2⟩
    exact h2
  · intro h2
    exact ⟨h2.trans (by norm_num), h2⟩

/-- Splitting the `health ≤ 30` tier count into the strict cascade count
`health < 30` and the boundary count `health = 30`. -/
theorem length_filter_le30_split (l : List Sensor) :
    (l.filter fun s => s.health ≤ 30).length
      = (l.filter fun s => s.health < 30).length
        + (l.filter fun s => s.health = 30).length := by
  induction l with
  | nil => simp
  | cons a l ih =>
    by_cases h1 : a.health < 30
    · simp [List.filter_cons, h1, le_of_lt h1, ne_of_lt h1, ih]
      omega
    · by_cases h2 : a.health = 30
      · simp [List.filter_cons, h2, le_refl, lt_irrefl, ih]
        omega
      · have h3 : ¬ a.health ≤ 30 := fun hle => (lt_or_eq_of_le hle).elim h1 h2
        simp [List.filter_cons, h1, h2, h3, ih]

/-! ## Claim theorems -/

/-- C3 counterexample: at arrival rate 0.3, service rate 0.1, one server
(so ρ = 3 ≥ 1), the C++ `QueueingModel` does not return a distinguished
unstable variant: `avgQueueLength()` and `avgWaitTime()` return the
numeric sentinel −1, refuting "never the numeric sentinel −1". -/
theorem C3_sentinel_counterexample :
    Cpp.QueueingModel.rho ⟨3/10, 1/10, 1⟩ = 3
      ∧ Cpp.QueueingModel.avgQueueLength ⟨3/10, 1/10, 1⟩ = -1
      ∧ Cpp.QueueingModel.avgWaitTime ⟨3/10, 1/10, 1⟩ = -1 := by
  norm_num [Cpp.QueueingModel.rho, Cpp.QueueingModel.avgQueueLength,
    Cpp.QueueingModel.avgWaitTime]

/-- C3 (amended): on every input with ρ = λ_a/(c·μ) ≥ 1 the Haskell
`calculateQueueMetrics` returns the distinguished variant `Nothing`
(never a numeric field), while the C++ `QueueingModel` and the Fortran
`analyze_maintenance_queue` signal instability with the numeric sentinel
−1 for queue length and wait time. -/
theorem C3_unstable_outcome (a s : ℚ) (c : ℕ)
    (h : 1 ≤ a / ((c : ℚ) * s)) :
    calculateQueueMetrics a s c = none
      ∧ Cpp.QueueingModel.avgQueueLength ⟨a, s, c⟩ = -1
      ∧ Cpp.QueueingModel.avgWaitTime ⟨a, s, c⟩ = -1
      ∧ (analyze_maintenance_queue a s c).2.1 = -1
      ∧ (analyze_maintenance_queue a s c).2.2 = -1 := by
  have hn : ¬ (a / ((c : ℚ) * s) < 1) := not_lt.mpr h
  refine ⟨?_, ?_, ?_, ?_, ?_⟩
  · simp [calculateQueueMetrics, h]
  · simp [Cpp.QueueingModel.avgQueueLength, Cpp.QueueingModel.rho, hn]
  · simp [Cpp.QueueingModel.avgWaitTime, Cpp.QueueingModel.rho, hn]
  · simp [analyze_maintenance_queue, h]
  · simp [analyze_maintenance_queue, h]

/-- C3 witness: the unstable-queue behavior evaluated at arrival rate 3,
service rate 1, one server (ρ = 3). -/
theorem C3_unstable_outcome_witness :
    calculateQueueMetrics 3 1 1 = none
      ∧ Cpp.QueueingModel.avgQueueLength ⟨3, 1, 1⟩ = -1
      ∧ Cpp.QueueingModel.avgWaitTime ⟨3, 1, 1⟩ = -1
      ∧ (analyze_maintenance_queue 3 1 1).2.1 = -1
      ∧ (analyze_maintenance_queue 3 1 1).2.2 = -1 :=
  C3_unstable_outcome 3 1 1 (by norm_num)

/-- C4 counterexample: on the empty device collection the Haskell
`analyzeCascadeRisk` does not fail — it is a total function and returns a
numeric `CascadeRisk` record (failures 0, expected additional failures 0,
risk level Low, multiplier 1), refuting "fails with an EmptyFleet error
rather than returning any numeric result". -/
theorem C4_empty_fleet_counterexample :
    (analyzeCascadeRisk []).currentFailures = 0
      ∧ (analyzeCascadeRisk []).expectedAdditionalFailures = 0
      ∧ (analyzeCascadeRisk []).riskLevel = RiskLevel.Low
      ∧ (analyzeCascadeRisk []).dependencyMultiplier = 1 := by
  norm_num [analyzeCascadeRisk, hsRound, Int.fract]

/-- C4 (amended): no implementation guards the empty fleet and no
`EmptyFleet` error exists; on an empty collection `analyzeCascadeRisk`
still returns a record whose risk factor is the division `0 / 0` (NaN in
the source's floating point, `0` under Lean's total division), and the
fleet aggregation (`calculateFleetMTBF`, Haskell `average`) likewise
divides by the zero device count. -/
theorem C4_empty_fleet_total :
    analyzeCascadeRisk [] = ⟨0, (0 : ℚ) / 0, 0, RiskLevel.Low, 1⟩
      ∧ Cpp.calculateFleetMTBF [] = (0 : ℝ) / 0
      ∧ average [] = (0 : ℝ) / 0 := by
  refine ⟨?_, ?_, ?_⟩
  · norm_num [analyzeCascadeRisk, hsRound, Int.fract]
  · norm_num [Cpp.calculateFleetMTBF]
  · norm_num [average]

/-- C6 counterexample: a fleet consisting of one sensor with health
exactly 30 — `getSensorStats` counts it as failed (health ≤ 30) but
`analyzeCascadeRisk` does not (health < 30 is strict), so the two failed
counts differ, refuting "a device with health exactly 30 is counted by
both". -/
theorem C6_health30_counterexample :
    (Cpp.getSensorStats [⟨30, 1, 1⟩]).failed = 1
      ∧ (Cpp.analyzeCascadeRisk [⟨30, 1, 1⟩]).currentFailures = 0 := by
  norm_num [Cpp.getSensorStats, Cpp.analyzeCascadeRisk]

/-- C6 (amended): for every fleet, the `failed` tier count of
`getSensorStats` (health ≤ 30) equals the cascade failed count of
`analyzeCascadeRisk` (health < 30, strict) plus the number of devices
with health exactly 30; the two agree exactly when no device sits on the
boundary. -/
theorem C6_failed_tier_vs_cascade_count (sensors : List Sensor) :
    (Cpp.getSensorStats sensors).failed
      = (Cpp.analyzeCascadeRisk sensors).currentFailures
        + (sensors.filter fun s => s.health = 30).length := by
  simp only [Cpp.getSensorStats, Cpp.analyzeCascadeRisk]
  rw [filter_failed_branch_eq, length_filter_le30_split]

/-- C7: on a 50-device fleet with exactly 5 failed devices the cascade
analysis returns risk factor 0.10 exactly, dependency multiplier 1.0 (the
boundary value 0.10 is not > 0.1, so the lower tier applies), and risk
level MEDIUM (0.10 > 0.08) — in the Haskell, C++ and Fortran
implementations alike. -/
theorem C7_scenario_D :
    (analyzeCascadeRisk demoFleet).currentFailures = 5
      ∧ (analyzeCascadeRisk demoFleet).cascadeRiskFactor = 0.1
      ∧ (analyzeCascadeRisk demoFleet).dependencyMultiplier = 1.0
      ∧ (analyzeCascadeRisk demoFleet).riskLevel = RiskLevel.Medium
      ∧ (Cpp.analyzeCascadeRisk demoFleet).riskFactor = 0.1
      ∧ (Cpp.analyzeCascadeRisk demoFleet).dependencyMultiplier = 1.0
      ∧ (Cpp.analyzeCascadeRisk demoFleet).riskLevel = "MEDIUM"
      ∧ analyze_cascade_risk 5 50 = (0.1, 1.0, 1, "MEDIUM") := by
  norm_num [analyzeCascadeRisk, Cpp.analyzeCascadeRisk, analyze_cascade_risk,
    demoFleet, List.filter_append, List.filter_replicate, hsRound, Int.fract,
    Cpp.truncToInt]

/-- C9: on the 5-failed-of-50 fleet the product
`failedCount · multiplier · 0.3 = 1.5` has fractional part ≥ 0.5, and the
truncating implementations (C++ `static_cast<int>`, Fortran `int()`)
return 1 expected additional failure while the rounding Haskell
implementation (and R, which rounds the same way) returns 2 — the
implementations disagree. -/
theorem C9_round_vs_truncate :
    (Cpp.analyzeCascadeRisk demoFleet).expectedAdditional = 1
      ∧ (analyze_cascade_risk 5 50).2.2.1 = 1
      ∧ (analyzeCascadeRisk demoFleet).expectedAdditionalFailures = 2
      ∧ (Cpp.analyzeCascadeRisk demoFleet).expectedAdditional
          ≠ (analyzeCascadeRisk demoFleet).expectedAdditionalFailures := by
  norm_num [analyzeCascadeRisk, Cpp.analyzeCascadeRisk, analyze_cascade_risk,
    demoFleet, List.filter_append, List.filter_replicate, hsRound, Int.fract,
    Cpp.truncToInt]

/-- C10: on every stable queue input the Haskell `calculateQueueMetrics`
returns `Just` metrics whose `utilization` field is the percentage 100·ρ,
while the C++ `getUtilization()` returns the fraction ρ itself; whenever
ρ > 0 the two outputs differ (by the factor 100). -/
theorem C10_utilization_percent_vs_fraction (a s : ℚ) (c : ℕ)
    (hs : 0 < s) (hc : 0 < c) (hρ : a / ((c : ℚ) * s) < 1) :
    ∃ m, calculateQueueMetrics a s c = some m
      ∧ m.utilization = 100 * (a / ((c : ℚ) * s))
      ∧ Cpp.QueueingModel.getUtilization ⟨a, s, c⟩ = a / ((c : ℚ) * s)
      ∧ (0 < a / ((c : ℚ) * s) →
          m.utilization = 100 * Cpp.QueueingModel.getUtilization ⟨a, s, c⟩
            ∧ m.utilization ≠ Cpp.QueueingModel.getUtilization ⟨a, s, c⟩) := by
  have hn : ¬ (1 ≤ a / ((c : ℚ) * s)) := not_le.mpr hρ
  simp only [calculateQueueMetrics]
  rw [if_neg hn]
  refine ⟨_, rfl, ?_, ?_, ?_⟩
  · show (a / ((c : ℚ) * s)) * 100 = 100 * (a / ((c : ℚ) * s))
    ring
  · rfl
  · intro hpos
    constructor
    · show (a / ((c : ℚ) * s)) * 100 = 100 * (a / ((c : ℚ) * s))
      ring
    · show (a / ((c : ℚ) * s)) * 100 ≠ a / ((c : ℚ) * s)
      intro heq
      have : a / ((c : ℚ) * s) = 0 := by linarith
      linarith

/-- C10 witness: the documented M/M/3 scenario (arrival 0.05, service
0.15, 3 servers, ρ = 1/9). -/
theorem C10_utilization_witness :
    ∃ m, calculateQueueMetrics (1/20) (3/20) 3 = some m
      ∧ m.utilization = 100 * ((1/20 : ℚ) / ((3 : ℚ) * (3/20)))
      ∧ Cpp.QueueingModel.getUtilization ⟨1/20, 3/20, 3⟩
          = (1/20 : ℚ) / ((3 : ℚ) * (3/20))
      ∧ (0 < (1/20 : ℚ) / ((3 : ℚ) * (3/20)) →
          m.utilization = 100 * Cpp.QueueingModel.getUtilization ⟨1/20, 3/20, 3⟩
            ∧ m.utilization ≠ Cpp.QueueingModel.getUtilization ⟨1/20, 3/20, 3⟩) :=
  C10_utilization_percent_vs_fraction (1/20) (3/20) 3 (by norm_num) (by norm_num)
    (by norm_num)

/-! ## Real-analytic helper lemmas -/

/-- The running term of the C++/Fortran loop is `e0 · lt^i / i!`. -/
theorem Cpp.erlangLoopTerm_eq (lt e0 : ℝ) (i : ℕ) :
    Cpp.erlangLoopTerm lt e0 i = e0 * lt ^ i / (Nat.factorial i : ℝ) := by
  induction i with
  | zero => simp [Cpp.erlangLoopTerm]
  | succ i ih =>
    rw [Cpp.erlangLoopTerm, ih, Nat.factorial_succ]
    have hne : ((Nat.factorial i : ℝ)) ≠ 0 := by
      exact_mod_cast Nat.factorial_ne_zero i
    push_cast
    field_simp
    ring

/-- The loop accumulator is the partial Poisson series. -/
theorem Cpp.erlangLoopSum_eq (lt e0 : ℝ) (k : ℕ) :
    Cpp.erlangLoopSum lt e0 k
      = ∑ i ∈ Finset.range k, e0 * lt ^ i / (Nat.factorial i : ℝ) := by
  induction k with
  | zero => simp [Cpp.erlangLoopSum]
  | succ k ih =>
    rw [Cpp.erlangLoopSum, ih, Cpp.erlangLoopTerm_eq, Finset.sum_range_succ]

/-- For `t ≥ 0` the Haskell `erlangReliability` is the Poisson survival
sum (the double negation `1 - (1 - Σ)` cancels). -/
theorem erlangReliability_eq_sum (k : ℕ) (lam t : ℝ) (ht : 0 ≤ t) :
    erlangReliability k lam t
      = ∑ i ∈ Finset.range k,
          Real.exp (-(lam * t)) * (lam * t) ^ i / (Nat.factorial i : ℝ) := by
  rw [erlangReliability, erlangCDF, if_neg (not_lt.mpr ht)]
  ring

/-- For `t ≥ 0` the C++ `ErlangModel::reliability` returns one minus the
Poisson survival sum, i.e. the complement of the Haskell
`erlangReliability`. -/
theorem cpp_erlang_complement (k : ℕ) (lam t : ℝ) (ht : 0 ≤ t) :
    Cpp.ErlangModel.reliability ⟨k, lam⟩ t = 1 - erlangReliability k lam t := by
  rw [Cpp.ErlangModel.reliability, erlangReliability_eq_sum k lam t ht]
  rw [Cpp.erlangLoopSum_eq]

/-- At `t = 0` the Poisson survival sum collapses to its `i = 0` term
and the Haskell `erlangReliability` is exactly `1`. -/
theorem erlangReliability_at_zero (k : ℕ) (lam : ℝ) (hk : 1 ≤ k) :
    erlangReliability k lam 0 = 1 := by
  rw [erlangReliability_eq_sum k lam 0 le_rfl]
  have hterm : ∀ i ∈ Finset.range k,
      Real.exp (-(lam * 0)) * (lam * 0) ^ i / (Nat.factorial i : ℝ)
        = if i = 0 then 1 else 0 := by
    intro i _
    cases i with
    | zero => simp
    | succ i => simp [zero_pow (Nat.succ_ne_zero i)]
  rw [Finset.sum_congr rfl hterm, Finset.sum_ite_eq' (Finset.range k) 0 fun _ => (1 : ℝ)]
  simp [Finset.mem_range]
  omega

/-- Rational bounds on `exp (-1/2)`, derived from the Mathlib decimal
bounds on `exp 1` by squaring. -/
theorem exp_neg_half_bounds :
    0.6065 < Real.exp (-(1/2 : ℝ)) ∧ Real.exp (-(1/2 : ℝ)) < 0.6066 := by
  have hx : Real.exp (1/2 : ℝ) * Real.exp (1/2 : ℝ) = Real.exp 1 := by
    rw [← Real.exp_add]
    norm_num
  have hxpos : 0 < Real.exp (1/2 : ℝ) := Real.exp_pos _
  have h1 : Real.exp 1 < 2.7182818286 := Real.exp_one_lt_d9
  have h2 : (2.7182818283 : ℝ) < Real.exp 1 := Real.exp_one_gt_d9
  have hlo : (1.6485 : ℝ) < Real.exp (1/2 : ℝ) := by nlinarith
  have hhi : Real.exp (1/2 : ℝ) < 1.6488 := by nlinarith
  have hinv : Real.exp (-(1/2 : ℝ)) = (Real.exp (1/2 : ℝ))⁻¹ := Real.exp_neg _
  have hxy : Real.exp (1/2 : ℝ) * (Real.exp (1/2 : ℝ))⁻¹ = 1 :=
    mul_inv_cancel₀ (ne_of_gt hxpos)
  have hypos : 0 < (Real.exp (1/2 : ℝ))⁻¹ := inv_pos.mpr hxpos
  constructor
  · rw [hinv]
    nlinarith
  · rw [hinv]
    nlinarith

/-- C1: at the documented scenario k = 3, λ = 0.0005, t = 1000 the
C++ `ErlangModel::reliability` (and the identical Fortran
`erlang_reliability`) returns `1 −` the Poisson survival sum — about
0.0144, the failure probability — whereas the survival sum itself (what
the Haskell `erlangReliability` computes, and what the claim calls R(t))
is about 0.9856. -/
theorem C1_erlang_formula_bug :
    Cpp.ErlangModel.reliability ⟨3, 1/2000⟩ 1000
        = 1 - erlangReliability 3 (1/2000) 1000
      ∧ erlang_reliability 3 (1/2000) 1000
        = Cpp.ErlangModel.reliability ⟨3, 1/2000⟩ 1000
      ∧ Cpp.ErlangModel.reliability ⟨3, 1/2000⟩ 1000 < 0.0145
      ∧ 0.9855 < erlangReliability 3 (1/2000) 1000 := by
  have hrel := cpp_erlang_complement 3 (1/2000) 1000 (by norm_num)
  have hval : erlangReliability 3 (1/2000) 1000 = 13/8 * Real.exp (-(1/2 : ℝ)) := by
    rw [erlangReliability_eq_sum 3 (1/2000) 1000 (by norm_num)]
    rw [Finset.sum_range_succ, Finset.sum_range_succ, Finset.sum_range_one]
    norm_num [Nat.factorial]
    ring
  have hb := exp_neg_half_bounds
  refine ⟨hrel, rfl, ?_, ?_⟩
  · rw [hrel, hval]
    linarith [hb.1]
  · rw [hval]
    linarith [hb.1]

/-- C2: at k = 1 the Haskell Erlang model does reduce exactly to the
exponential model (reliability, mttf and pdf all coincide), but the C++
`ErlangModel` — hit by the same 1−sum slip as in C1 — returns
`1 − e^{−λt}` for its reliability, which differs from the exponential
`e^{−λt}`; evaluated at λ = 0.001, t = 1000. -/
theorem C2_erlang_k1_vs_exponential :
    Cpp.ErlangModel.reliability ⟨1, 1/1000⟩ 1000
        ≠ Cpp.ExponentialModel.reliability ⟨1/1000⟩ 1000
      ∧ erlangReliability 1 (1/1000) 1000 = exponentialReliability (1/1000) 1000
      ∧ erlangMTTF 1 (1/1000) = exponentialMTBF (1/1000)
      ∧ erlangPDF 1 (1/1000) 1000 = Cpp.ExponentialModel.pdf ⟨1/1000⟩ 1000 := by
  have h1 : erlangReliability 1 (1/1000) 1000 = exponentialReliability (1/1000) 1000 := by
    rw [erlangReliability_eq_sum 1 (1/1000) 1000 (by norm_num), Finset.sum_range_one]
    norm_num [exponentialReliability]
  have hlt : exponentialReliability (1/1000) 1000 < 1/2 := by
    unfold exponentialReliability
    have harg : (-(1/1000 * 1000) : ℝ) = -1 := by norm_num
    rw [harg, Real.exp_neg]
    have hgt := Real.exp_one_gt_d9
    have hp : 0 < Real.exp 1 := Real.exp_pos 1
    have hm : Real.exp 1 * (Real.exp 1)⁻¹ = 1 := mul_inv_cancel₀ (ne_of_gt hp)
    nlinarith [inv_pos.mpr hp]
  refine ⟨?_, h1, ?_, ?_⟩
  · rw [cpp_erlang_complement 1 (1/1000) 1000 (by norm_num), h1]
    show 1 - exponentialReliability (1/1000) 1000 ≠ Cpp.ExponentialModel.reliability ⟨1/1000⟩ 1000
    have hsame : Cpp.ExponentialModel.reliability ⟨1/1000⟩ 1000
        = exponentialReliability (1/1000) 1000 := rfl
    rw [hsame]
    intro heq
    linarith
  · norm_num [erlangMTTF, exponentialMTBF]
  · norm_num [erlangPDF, Cpp.ExponentialModel.pdf]

/-- C5: at t = 0 the exponential reliability is 1 in both the Haskell and
C++ implementations and the Haskell Erlang reliability is 1, but the
C++ `ErlangModel::reliability` (and the identical Fortran
`erlang_reliability`) returns 0 at t = 0 — the 1−sum slip of C1 again. -/
theorem C5_reliability_at_zero (k : ℕ) (lam : ℝ) (hk : 1 ≤ k) (hlam : 0 < lam) :
    exponentialReliability lam 0 = 1
      ∧ Cpp.ExponentialModel.reliability ⟨lam⟩ 0 = 1
      ∧ erlangReliability k lam 0 = 1
      ∧ Cpp.ErlangModel.reliability ⟨k, lam⟩ 0 = 0
      ∧ erlang_reliability k lam 0 = 0 := by
  have hhs := erlangReliability_at_zero k lam hk
  have hcpp : Cpp.ErlangModel.reliability ⟨k, lam⟩ 0 = 0 := by
    rw [cpp_erlang_complement k lam 0 le_rfl, hhs]
    norm_num
  refine ⟨?_, ?_, hhs, hcpp, hcpp⟩
  · simp [exponentialReliability]
  · simp [Cpp.ExponentialModel.reliability]

/-- C5 witness: the t = 0 behavior evaluated at k = 2, λ = 1. -/
theorem C5_reliability_at_zero_witness :
    exponentialReliability 1 0 = 1
      ∧ Cpp.ExponentialModel.reliability ⟨1⟩ 0 = 1
      ∧ erlangReliability 2 1 0 = 1
      ∧ Cpp.ErlangModel.reliability ⟨2, 1⟩ 0 = 0
      ∧ erlang_reliability 2 1 0 = 0 :=
  C5_reliability_at_zero 2 1 (by norm_num) (by norm_num)

/-- C8 counterexample: the models accept the invalid rate λ = −1 without
any `InvalidRate` failure and still produce a value — a "reliability" of
e ≈ 2.718 at t = 1, which is not even a probability. -/
theorem C8_negative_rate_counterexample :
    exponentialReliability (-1) 1 = Real.exp 1
      ∧ Cpp.ExponentialModel.reliability ⟨-1⟩ 1 = Real.exp 1
      ∧ 1 < Real.exp 1 := by
  refine ⟨?_, ?_, ?_⟩
  · norm_num [exponentialReliability]
  · norm_num [Cpp.ExponentialModel.reliability]
  · linarith [Real.exp_one_gt_d9]

/-- C8 (amended): no implementation validates the rate; the reliability
functions are total in λ, and for every λ < 0 and t > 0 they return a
value strictly greater than 1 instead of failing with `InvalidRate`. -/
theorem C8_no_rate_validation (lam t : ℝ) (hlam : lam < 0) (ht : 0 < t) :
    1 < exponentialReliability lam t
      ∧ Cpp.ExponentialModel.reliability ⟨lam⟩ t = exponentialReliability lam t := by
  constructor
  · unfold exponentialReliability
    have hpos : 0 < -(lam * t) := by nlinarith
    calc (1 : ℝ) = Real.exp 0 := Real.exp_zero.symm
      _ < Real.exp (-(lam * t)) := Real.exp_lt_exp.2 hpos
  · rfl

/-- C8 witness: the missing validation exercised at λ = −1, t = 1. -/
theorem C8_no_rate_validation_witness :
    1 < exponentialReliability (-1) 1
      ∧ Cpp.ExponentialModel.reliability ⟨-1⟩ 1 = exponentialReliability (-1) 1 :=
  C8_no_rate_validation (-1) 1 (by norm_num) (by norm_num)
